import Mathlib

/-!
Verification development for the IdeaForge chat front end
(`streamlit_app.py`).  The reviewable core of the repository is the
prompt-assembly-and-resilient-call routine: `extract_text_from_response`
(lines 36-58), `generate_with_gemini` (lines 61-77), and the send handler
(lines 131-168) which builds the bounded-context prompt, applies the
keyword heuristics, retries once on an empty result, maps transport
failures to display strings, and appends the finalized turn to the
session history.

The Python side is duck typed, so the remote response envelope is
embedded as a small dynamic value type `PyVal` with Python truthiness,
`hasattr` / `getattr`, indexing and iteration; operations that would
raise in Python return `Except PyExc`.  The remote call itself is an
oracle parameter `model : Call -> Except PyExc PyVal`.
-/

/-- Python exceptions, split by whether they are a `RuntimeError`
(the only kind `generate_with_gemini` ever raises) or anything else. -/
inductive PyExc where
  | runtime (msg : String)
  | other (msg : String)
deriving DecidableEq, Repr

/-- Python `str(e)` on an exception: its message. -/
def PyExc.msg : PyExc → String
  | .runtime m => m
  | .other m => m

/-- A duck-typed Python value, rich enough for the response envelopes
`extract_text_from_response` traverses: `None`, strings, lists, and
objects with named attributes. -/
inductive PyVal where
  | none
  | str (s : String)
  | list (elems : List PyVal)
  | obj (fields : List (String × PyVal))

/-- Python truthiness: `None`, `""` and `[]` are falsy; objects are truthy. -/
def isTruthy : PyVal → Bool
  | .none => false
  | .str s => !s.data.isEmpty
  | .list l => !l.isEmpty
  | .obj _ => true

/-- Python `hasattr(v, name)`: only objects carry attributes in this model. -/
def hasattrB (v : PyVal) (name : String) : Bool :=
  match v with
  | .obj fs => fs.any (fun f => f.1 == name)
  | _ => false

/-- Python `getattr(v, name, None)`: attribute lookup with default `None`. -/
def getattrD (v : PyVal) (name : String) : PyVal :=
  match v with
  | .obj fs =>
    match fs.find? (fun f => f.1 == name) with
    | some f => f.2
    | Option.none => .none
  | _ => .none

/-- Python `v[0]`: head of a list, first character of a string; a `TypeError`
on values that are not subscriptable, an `IndexError` when empty. -/
def pyIndex0 : PyVal → Except PyExc PyVal
  | .list (x :: _) => .ok x
  | .list [] => .error (.other "IndexError: list index out of range")
  | .str s =>
    match s.data with
    | c :: _ => .ok (.str (String.mk [c]))
    | [] => .error (.other "IndexError: string index out of range")
  | _ => .error (.other "TypeError: object is not subscriptable")

/-- Python `for p in v`: the elements of a list, the characters of a string
(as one-character strings); a `TypeError` otherwise. -/
def pyIter : PyVal → Except PyExc (List PyVal)
  | .list l => .ok l
  | .str s => .ok (s.data.map (fun c => PyVal.str (String.mk [c])))
  | _ => .error (.other "TypeError: object is not iterable")

/-- Python whitespace as understood by `str.strip()`. -/
def isPySpace (c : Char) : Bool :=
  c == ' ' || c == '\t' || c == '\n' || c == '\r' || c == '\x0b' || c == '\x0c'

/-- Python `s.strip()`: drop whitespace from both ends. -/
def pyStrip (s : String) : String :=
  String.mk (((s.data.dropWhile isPySpace).reverse.dropWhile isPySpace).reverse)

/-- Python `s.lower()` (ASCII-faithful). -/
def pyLower (s : String) : String :=
  String.mk (s.data.map Char.toLower)

/-- Python `sep.join(strs)`. -/
def pyJoin (sep : String) : List String → String
  | [] => ""
  | [x] => x
  | x :: xs => x ++ sep ++ pyJoin sep xs

/-- The arguments handed to `"\n".join(texts)`: every collected value
must be a string, otherwise the join raises a `TypeError`. -/
def joinArgs : List PyVal → Except PyExc (List String)
  | [] => .ok []
  | .str s :: rest =>
    match joinArgs rest with
    | .ok ss => .ok (s :: ss)
    | .error e => .error e
  | _ :: _ => .error (.other "TypeError: sequence item: expected str instance")

/-- Needle occurrence at any position, Python `needle in hay` on char lists. -/
def containsList (needle hay : List Char) : Bool :=
  (List.range (hay.length + 1)).any (fun i => needle.isPrefixOf (hay.drop i))

/-- Python substring test `needle in s`. -/
def containsStr (needle s : String) : Bool :=
  containsList needle.data s.data

/-- The body of `extract_text_from_response` (lines 38-55), before the
enclosing `try/except`: the traversal of the envelope, with every place
Python could raise made explicit as an `Except` error.  The value
`.ok (some s)` is an early `return s`; `.ok none` is `return None`. -/
def extractBody (resp : PyVal) : Except PyExc (Option String) :=
  if !(isTruthy resp) then .ok Option.none
  else
    -- lines 42-52: the structured candidate parsing block; `some s`
    -- means the block returned `s`, `none` means control fell through.
    let candBlock : Except PyExc (Option String) :=
      if hasattrB resp "candidates" && isTruthy (getattrD resp "candidates") then
        match pyIndex0 (getattrD resp "candidates") with
        | .error e => .error e
        | .ok cand =>
          if hasattrB cand "content" && isTruthy (getattrD cand "content")
              && hasattrB (getattrD cand "content") "parts" then
            let parts := getattrD (getattrD cand "content") "parts"
            if isTruthy parts then
              match pyIter parts with
              | .error e => .error e
              | .ok ps =>
                let texts := ps.filterMap (fun p =>
                  if isTruthy (getattrD p "text") then some (getattrD p "text")
                  else Option.none)
                if texts.isEmpty then .ok Option.none
                else
                  match joinArgs texts with
                  | .error e => .error e
                  | .ok strs => .ok (some (pyStrip (pyJoin "\n" strs)))
            else .ok Option.none
          else .ok Option.none
      else .ok Option.none
    match candBlock with
    | .error e => .error e
    | .ok (some s) => .ok (some s)
    | .ok Option.none =>
      -- lines 54-55: `if hasattr(resp, "text") and resp.text: return resp.text.strip()`
      if hasattrB resp "text" && isTruthy (getattrD resp "text") then
        match getattrD resp "text" with
        | .str s => .ok (some (pyStrip s))
        | _ => .error (.other "AttributeError: strip")
      else .ok Option.none

/-- The function `extract_text_from_response` (lines 36-58): run the traversal and
turn any exception into `None` via the enclosing `try/except`. -/
def extract_text_from_response (resp : PyVal) : Option String :=
  match extractBody resp with
  | .ok r => r
  | .error _ => Option.none

/-- The fixed apology of line 154. -/
def apologyMessage : String :=
  "⚠️ I couldn\x27t generate a response. Try simplifying the request."

/-- The fixed quota / rate-limit message of line 159. -/
def quotaMessage : String :=
  "🚦 Gemini quota / rate limit reached. Try again later or use a different key."

/-- The generic error message of line 161, embedding the failure cause. -/
def errorMessage (err : String) : String :=
  "⚠️ Error calling Gemini: " ++ err

/-- The instruction appended to the prompt for the single retry (line 152). -/
def retryInstruction : String := "\nPlease try again concisely."

/-- One outbound request to `client.models.generate_content` (the fixed
`SYSTEM_PROMPT` is passed alongside the prompt on every call and is
absorbed into the oracle). -/
structure Call where
  prompt : String
  maxOutputTokens : Nat
  temperature : ℚ
deriving DecidableEq, Repr

/-- The function `generate_with_gemini` (lines 61-77) against a model oracle: invoke
the endpoint, extract the text, normalize falsy text to `None`
(`return text if text else None`), and wrap any exception from the call
as `RuntimeError(str(e))`. -/
def generate_with_gemini (model : Call → Except PyExc PyVal) (c : Call) :
    Except PyExc (Option String) :=
  match model c with
  | .error e => .error (.runtime (PyExc.msg e))
  | .ok resp =>
    .ok (match extract_text_from_response resp with
         | some s => if s.data.isEmpty then Option.none else some s
         | Option.none => Option.none)

/-- The message-steering intents of the heuristic block (lines 137-144),
named as in the specification. -/
inductive Intent where
  | Service
  | Business
  | Neutral
deriving DecidableEq, Repr

/-- The branch taken by the heuristic block (lines 139-144), keyed on the
lowercased message. -/
def classifyIntent (input : String) : Intent :=
  if containsStr "service" (pyLower input) && !(containsStr "business" (pyLower input)) then
    .Service
  else if containsStr "business" (pyLower input) && !(containsStr "service" (pyLower input)) then
    .Business
  else
    .Neutral

/-- The value `mod_input` after the heuristic block (lines 138-144): the message,
with the fixed service or business clause prepended on the matching
branch. -/
def modifiedInput (input : String) : String :=
  if containsStr "service" (pyLower input) && !(containsStr "business" (pyLower input)) then
    "Give me creative service ideas only. " ++ input
  else if containsStr "business" (pyLower input) && !(containsStr "service" (pyLower input)) then
    "Give me business ideas only — not personal services. " ++ input
  else
    input

/-- The slice `history[-6:]` (line 134): the most recent six turns. -/
def lastSix (hist : List (String × String)) : List (String × String) :=
  hist.drop (hist.length - 6)

/-- The value `convo_text` (line 134): the joined `User:` / `IdeaForge:` blocks of
the last six turns. -/
def convoText (hist : List (String × String)) : String :=
  pyJoin "\n" ((lastSix hist).map (fun p => "User: " ++ p.1 ++ "\nIdeaForge: " ++ p.2))

/-- The prompt as finally used (lines 135 and 141-144): context, the
(possibly intent-prefixed) message, and the trailing cue. -/
def buildPrompt (hist : List (String × String)) (input : String) : String :=
  convoText hist ++ "\nUser: " ++ modifiedInput input ++ "\nIdeaForge:"

/-- The try-block of lines 147-155 run against a model oracle, paired
with the trace of outbound calls it makes: first the built prompt at
(768, 0.7); on an empty result one retry with the appended instruction
at (512, 0.6); if still empty, the fixed apology. -/
def genReplyCore (model : Call → Except PyExc PyVal)
    (hist : List (String × String)) (input : String) :
    Except PyExc String × List Call :=
  let c1 : Call := ⟨buildPrompt hist input, 768, 0.7⟩
  match generate_with_gemini model c1 with
  | .error e => (.error e, [c1])
  | .ok (some t) => (.ok t, [c1])
  | .ok Option.none =>
    let c2 : Call := ⟨buildPrompt hist input ++ retryInstruction, 512, 0.6⟩
    match generate_with_gemini model c2 with
    | .error e => (.error e, [c1, c2])
    | .ok (some t) => (.ok t, [c1, c2])
    | .ok Option.none => (.ok apologyMessage, [c1, c2])

/-- Lines 147-161: the try-block together with the `except RuntimeError`
handler mapping a "429" message to the quota string and anything else to
the generic error string.  A non-`RuntimeError` exception would escape
this handler, hence the `Except` result type; the development proves it
is always `.ok`. -/
def generateReplyE (model : Call → Except PyExc PyVal)
    (hist : List (String × String)) (input : String) : Except PyExc String :=
  match (genReplyCore model hist input).1 with
  | .ok s => .ok s
  | .error (.runtime msg) =>
    .ok (if containsStr "429" msg then quotaMessage else errorMessage msg)
  | .error e => .error e

/-- Python `s.replace(chr(10), "<br>")` as applied on line 164, on char lists. -/
def brSubst : List Char → List Char
  | [] => []
  | c :: t => if c = '\n' then '<' :: 'b' :: 'r' :: '>' :: brSubst t else c :: brSubst t

/-- Newline-to-`<br>` rewriting of line 164. -/
def newlineToBr (s : String) : String :=
  String.mk (brSubst s.data)

/-- The `Clear chat` handler (lines 121-122): reset the history. -/
def clearStep (_hist : List (String × String)) : List (String × String) :=
  []

/-- The send handler (lines 131-164) as a step on the session history:
nothing happens when the stripped input is empty (the guard on line
131); otherwise the reply is generated and the finalized turn is
appended with newlines rewritten to `<br>` (line 164, where
`st.session_state.get` returns the submitted input).  `none` models a
non-`RuntimeError` exception escaping the handler, in which case the
append never runs. -/
def sendStep (model : Call → Except PyExc PyVal)
    (hist : List (String × String)) (input : String) :
    Option (List (String × String)) :=
  if (pyStrip input).data.isEmpty then some hist
  else
    match generateReplyE model hist input with
    | .ok reply => some (hist ++ [(newlineToBr input, newlineToBr reply)])
    | .error _ => Option.none

/-- A structured part of a candidate content: an optional text field
(`None` or missing text is modelled as `Option.none`). -/
structure PartE where
  text : Option String
deriving DecidableEq, Repr

/-- A structured candidate: optional content carrying a parts list
(a falsy or missing content, or a content without usable parts, is
`Option.none`). -/
structure CandE where
  content : Option (List PartE)
deriving DecidableEq, Repr

/-- A structured response envelope, the spec view of the duck-typed
response: an optional candidate list and an optional flat text field. -/
structure EnvE where
  candidates : Option (List CandE)
  text : Option String
deriving DecidableEq, Repr

/-- Embedding of a structured part into the duck-typed world. -/
def PartE.toVal (p : PartE) : PyVal :=
  .obj [("text", match p.text with
                 | some s => .str s
                 | Option.none => .none)]

/-- Embedding of a structured candidate into the duck-typed world. -/
def CandE.toVal (c : CandE) : PyVal :=
  .obj [("content", match c.content with
                    | some parts => .obj [("parts", .list (parts.map PartE.toVal))]
                    | Option.none => .none)]

/-- Embedding of a structured envelope into the duck-typed world. -/
def EnvE.toVal (e : EnvE) : PyVal :=
  .obj [("candidates", match e.candidates with
                       | some cs => .list (cs.map CandE.toVal)
                       | Option.none => .none),
        ("text", match e.text with
                 | some s => .str s
                 | Option.none => .none)]

/-- The non-empty text parts of a structured candidate, in order. -/
def candidateTexts (c : CandE) : List String :=
  match c.content with
  | some parts =>
    parts.filterMap (fun p =>
      match p.text with
      | some s => if s.data.isEmpty then Option.none else some s
      | Option.none => Option.none)
  | Option.none => []

/-- The flat-text fallback as the code applies it: a non-empty flat text
field, stripped. -/
def flatTextPolicy (e : EnvE) : Option String :=
  match e.text with
  | some s => if s.data.isEmpty then Option.none else some (pyStrip s)
  | Option.none => Option.none

/-- Modelled from the claim wording of C5 (written from the spec, for
comparison against the code): (a) if a non-empty candidate list exists,
the result is the non-empty text parts of the first candidate body joined with
newline — Empty when there are none, later checks never run; (b)
otherwise a non-empty flat text field is returned as is; (c) otherwise
Empty. -/
def specExtractPolicy (e : EnvE) : Option String :=
  match e.candidates with
  | some (c :: _) =>
    match candidateTexts c with
    | [] => Option.none
    | ts => some (pyJoin "\n" ts)
  | _ =>
    match e.text with
    | some s => if s.data.isEmpty then Option.none else some s
    | Option.none => Option.none

/-- The extraction policy the code actually implements on structured
envelopes: the candidate branch applies only when the first candidate
yields at least one non-empty text part (joined with newline and
stripped); otherwise control falls through to the stripped flat text
field; otherwise Empty. -/
def amendedExtractPolicy (e : EnvE) : Option String :=
  match e.candidates with
  | some (c :: _) =>
    match candidateTexts c with
    | [] => flatTextPolicy e
    | ts => some (pyStrip (pyJoin "\n" ts))
  | _ => flatTextPolicy e

/-- The envelope of the C5 counterexample: a non-empty candidate list
whose only candidate has a falsy content, next to a non-empty flat text
field. -/
def fallthroughEnv : EnvE :=
  ⟨some [⟨Option.none⟩], some "hello"⟩

/-- An envelope on which the traversal raises: `candidates` is a truthy
object, so `resp.candidates[0]` is a `TypeError`. -/
def badTraversal : PyVal :=
  .obj [("candidates", .obj [("z", .none)])]

/-- Splitting a character list on newline characters (the line structure
of a prompt). -/
def splitOnNl : List Char → List (List Char)
  | [] => [[]]
  | c :: t =>
    if c = '\n' then [] :: splitOnNl t
    else
      match splitOnNl t with
      | [] => [[c]]
      | l :: ls => (c :: l) :: ls

/-- The lines of a string. -/
def linesOf (s : String) : List String :=
  (splitOnNl s.data).map String.mk

/-- The string contains no newline character. -/
def noNl (s : String) : Bool :=
  s.data.all (fun c => c != '\n')

/-- A model oracle whose responses are always falsy, so every call yields
an empty result. -/
def modelEmpty : Call → Except PyExc PyVal := fun _ => .ok PyVal.none

/-- A model oracle that always fails with a rate-limit message. -/
def modelQuota : Call → Except PyExc PyVal :=
  fun _ => .error (.other "got 429 RESOURCE_EXHAUSTED")

/-- A model oracle that always answers with a flat-text envelope. -/
def modelOk : Call → Except PyExc PyVal :=
  fun _ => .ok (PyVal.obj [("text", PyVal.str "sure")])

/-- A ten-turn transcript with recognizable markers. -/
def hist10 : List (String × String) :=
  [("xu0z", "xb0z"), ("xu1z", "xb1z"), ("xu2z", "xb2z"), ("xu3z", "xb3z"),
   ("xu4z", "xb4z"), ("xu5z", "xb5z"), ("xu6z", "xb6z"), ("xu7z", "xb7z"),
   ("xu8z", "xb8z"), ("xu9z", "xb9z")]

/-- The end-to-end message of the C3 test. -/
def dogMsg : String := "I need service ideas for a dog walking company"

theorem data_append_eq (a b : String) : (a ++ b).data = a.data ++ b.data := rfl

theorem mk_append_eq (a b : String) : String.mk (a.data ++ b.data) = a ++ b := rfl

theorem generate_with_gemini_error_runtime
    (model : Call → Except PyExc PyVal) (c : Call) (e : PyExc)
    (h : generate_with_gemini model c = .error e) : ∃ m, e = PyExc.runtime m := by
  unfold generate_with_gemini at h
  cases hm : model c with
  | error e2 =>
    rw [hm] at h
    simp only [Except.error.injEq] at h
    exact ⟨PyExc.msg e2, h.symm⟩
  | ok v =>
    rw [hm] at h
    simp at h

theorem genReplyCore_error_runtime
    (model : Call → Except PyExc PyVal) (hist : List (String × String))
    (input : String) (e : PyExc)
    (h : (genReplyCore model hist input).1 = .error e) : ∃ m, e = PyExc.runtime m := by
  unfold genReplyCore at h
  dsimp only at h
  split at h
  next e1 hg =>
    simp only [Except.error.injEq] at h
    exact h ▸ generate_with_gemini_error_runtime _ _ _ hg
  next t hg => simp at h
  next hg =>
    split at h
    next e2 hg2 =>
      simp only [Except.error.injEq] at h
      exact h ▸ generate_with_gemini_error_runtime _ _ _ hg2
    next t hg2 => simp at h
    next hg2 => simp at h

theorem generateReplyE_isOk (model : Call → Except PyExc PyVal)
    (hist : List (String × String)) (input : String) :
    ∃ s, generateReplyE model hist input = .ok s := by
  unfold generateReplyE
  cases hc : (genReplyCore model hist input).1 with
  | ok s => exact ⟨s, rfl⟩
  | error e =>
    obtain ⟨m, rfl⟩ := genReplyCore_error_runtime _ _ _ _ hc
    exact ⟨_, rfl⟩

/-- Claim C2: for every transcript and message, `generate_reply` never
raises to its caller — every failure path (transport error, empty
result, extraction failure) resolves to a display string.  In the
embedding an escaped exception is an `Except.error`; the result is
always `Except.ok` of a string. -/
theorem claim_C2_never_raises (model : Call → Except PyExc PyVal)
    (hist : List (String × String)) (input : String) :
    ∃ s, generateReplyE model hist input = .ok s :=
  generateReplyE_isOk model hist input

/-- Claim C7: any error raised while traversing the response structure
during `extract_text_from_response` is treated as Empty (`none`), never
propagated to the caller. -/
theorem claim_C7_traversal_error_empty (resp : PyVal) (e : PyExc)
    (h : extractBody resp = .error e) :
    extract_text_from_response resp = Option.none := by
  unfold extract_text_from_response
  rw [h]

/-- Witness for C7: a malformed envelope whose `candidates` attribute is
a bare object really makes the traversal raise, and extraction yields
Empty. -/
theorem claim_C7_witness :
    extractBody badTraversal = .error (.other "TypeError: object is not subscriptable")
    ∧ extract_text_from_response badTraversal = Option.none :=
  ⟨rfl, claim_C7_traversal_error_empty badTraversal
    (.other "TypeError: object is not subscriptable") rfl⟩

theorem errorMessage_ne_quotaMessage (msg : String) :
    errorMessage msg ≠ quotaMessage := by
  intro h
  have h1 : (errorMessage msg).data = quotaMessage.data := congrArg String.data h
  unfold errorMessage at h1
  rw [String.data_append] at h1
  have h2 : (("⚠️ Error calling Gemini: " : String).data ++ msg.data).head? = some '⚠' := rfl
  rw [h1] at h2
  exact absurd h2 (by decide)

/-- Claim C6: for every transport failure raised by the model call whose
stringified message contains "429", `generate_reply` returns the fixed
quota-exceeded string verbatim; for every other transport failure it
returns the generic error string embedding the failure cause, which is
never the quota string. -/
theorem claim_C6_rate_limit_detection (model : Call → Except PyExc PyVal)
    (hist : List (String × String)) (input : String) (msg : String)
    (h : (genReplyCore model hist input).1 = .error (.runtime msg)) :
    (containsStr "429" msg = true →
      generateReplyE model hist input = .ok quotaMessage)
    ∧ (containsStr "429" msg = false →
      generateReplyE model hist input = .ok (errorMessage msg)
      ∧ errorMessage msg ≠ quotaMessage) := by
  constructor
  · intro h4
    unfold generateReplyE
    rw [h]
    simp [h4]
  · intro h4
    refine ⟨?_, errorMessage_ne_quotaMessage msg⟩
    unfold generateReplyE
    rw [h]
    simp [h4]

/-- Witness for C6: a transport failure mentioning 429 yields the quota
string. -/
theorem claim_C6_witness :
    (genReplyCore modelQuota [] "hi").1 = .error (.runtime "got 429 RESOURCE_EXHAUSTED")
    ∧ generateReplyE modelQuota [] "hi" = .ok quotaMessage :=
  ⟨rfl, (claim_C6_rate_limit_detection modelQuota [] "hi"
      "got 429 RESOURCE_EXHAUSTED" rfl).1 rfl⟩

/-- Claim C1: `generate_reply` first calls the model with the built
prompt at `max_tokens = 768`, `temperature = 0.7`; if that call yields
Empty it retries exactly once (the call trace has exactly those two
entries) with the "please retry concisely" instruction appended to the
prompt at `max_tokens = 512`, `temperature = 0.6`; and if the retry also
yields Empty it returns the fixed apology string. -/
theorem claim_C1_retry_contract (model : Call → Except PyExc PyVal)
    (hist : List (String × String)) (input : String) :
    (genReplyCore model hist input).2.head? =
      some ⟨buildPrompt hist input, 768, 0.7⟩
    ∧ (generate_with_gemini model ⟨buildPrompt hist input, 768, 0.7⟩
         = .ok Option.none →
       (genReplyCore model hist input).2 =
         [⟨buildPrompt hist input, 768, 0.7⟩,
          ⟨buildPrompt hist input ++ retryInstruction, 512, 0.6⟩]
       ∧ (generate_with_gemini model
            ⟨buildPrompt hist input ++ retryInstruction, 512, 0.6⟩
            = .ok Option.none →
          generateReplyE model hist input = .ok apologyMessage)) := by
  constructor
  · unfold genReplyCore
    dsimp only
    split
    · rfl
    · rfl
    · split <;> rfl
  · intro h1
    constructor
    · unfold genReplyCore
      dsimp only
      rw [h1]
      dsimp only
      split <;> rfl
    · intro h2
      unfold generateReplyE genReplyCore
      dsimp only
      rw [h1]
      dsimp only
      rw [h2]

/-- Witness for C1: against a model whose responses are always falsy,
both calls yield Empty and the reply is the fixed apology. -/
theorem claim_C1_witness :
    generate_with_gemini modelEmpty ⟨buildPrompt [] "hi", 768, 0.7⟩ = .ok Option.none
    ∧ generate_with_gemini modelEmpty
        ⟨buildPrompt [] "hi" ++ retryInstruction, 512, 0.6⟩ = .ok Option.none
    ∧ generateReplyE modelEmpty [] "hi" = .ok apologyMessage :=
  ⟨rfl, rfl, ((claim_C1_retry_contract modelEmpty [] "hi").2 rfl).2 rfl⟩

set_option maxRecDepth 16384 in
/-- Claim C3: a message whose lowercase form contains "service" and not
"business" gets intent Service and the fixed service clause prepended; one
with "business" and not "service" gets Business with the business clause;
both-or-neither gives Neutral with the message unchanged.  End to end,
for "I need service ideas for a dog walking company" on an empty
transcript the prompt contains the literal service clause and the
original message and no business clause. -/
theorem claim_C3_intent_heuristic :
    (∀ input : String,
      (containsStr "service" (pyLower input) = true →
       containsStr "business" (pyLower input) = false →
         classifyIntent input = Intent.Service
         ∧ modifiedInput input = "Give me creative service ideas only. " ++ input)
      ∧ (containsStr "business" (pyLower input) = true →
         containsStr "service" (pyLower input) = false →
         classifyIntent input = Intent.Business
         ∧ modifiedInput input = "Give me business ideas only — not personal services. " ++ input)
      ∧ (containsStr "service" (pyLower input) = containsStr "business" (pyLower input) →
         classifyIntent input = Intent.Neutral ∧ modifiedInput input = input))
    ∧ containsStr "Give me creative service ideas only" (buildPrompt [] dogMsg) = true
    ∧ containsStr dogMsg (buildPrompt [] dogMsg) = true
    ∧ containsStr "Give me business ideas only" (buildPrompt [] dogMsg) = false := by
  refine ⟨?_, by decide, by decide, by decide⟩
  intro input
  refine ⟨?_, ?_, ?_⟩
  · intro h1 h2
    constructor <;> simp [classifyIntent, modifiedInput, h1, h2]
  · intro h1 h2
    constructor <;> simp [classifyIntent, modifiedInput, h1, h2]
  · intro h
    cases hs : containsStr "service" (pyLower input) with
    | true =>
      rw [hs] at h
      constructor <;> simp [classifyIntent, modifiedInput, hs, h.symm]
    | false =>
      rw [hs] at h
      constructor <;> simp [classifyIntent, modifiedInput, hs, h.symm]

set_option maxRecDepth 16384 in
/-- Witness for C3: the three heuristic branches at concrete messages. -/
theorem claim_C3_witness :
    (classifyIntent dogMsg = Intent.Service
     ∧ modifiedInput dogMsg = "Give me creative service ideas only. " ++ dogMsg)
    ∧ (classifyIntent "a business plan" = Intent.Business
       ∧ modifiedInput "a business plan" =
           "Give me business ideas only — not personal services. " ++ "a business plan")
    ∧ (classifyIntent "hello" = Intent.Neutral ∧ modifiedInput "hello" = "hello") :=
  ⟨(claim_C3_intent_heuristic.1 dogMsg).1 (by decide) (by decide),
   (claim_C3_intent_heuristic.1 "a business plan").2.1 (by decide) (by decide),
   (claim_C3_intent_heuristic.1 "hello").2.2 (by decide)⟩

set_option maxRecDepth 16384 in
/-- Claim C4: `build_prompt` includes at most the most recent six turns:
the included slice is a suffix of the transcript of length `min n 6`;
for a ten-turn transcript it is exactly the final six; and on a concrete
ten-turn transcript the markers of the last six turns occur in the
prompt while those of the first four do not. -/
theorem claim_C4_context_bound :
    (∀ hist : List (String × String),
      (lastSix hist).length = min hist.length 6
      ∧ ∃ pre, pre ++ lastSix hist = hist)
    ∧ (∀ hist : List (String × String),
        hist.length = 10 → lastSix hist = hist.drop 4)
    ∧ (containsStr "xu0z" (buildPrompt hist10 "hello") = false
       ∧ containsStr "xu1z" (buildPrompt hist10 "hello") = false
       ∧ containsStr "xu2z" (buildPrompt hist10 "hello") = false
       ∧ containsStr "xu3z" (buildPrompt hist10 "hello") = false
       ∧ containsStr "xb0z" (buildPrompt hist10 "hello") = false
       ∧ containsStr "xb1z" (buildPrompt hist10 "hello") = false
       ∧ containsStr "xb2z" (buildPrompt hist10 "hello") = false
       ∧ containsStr "xb3z" (buildPrompt hist10 "hello") = false
       ∧ containsStr "xu4z" (buildPrompt hist10 "hello") = true
       ∧ containsStr "xu5z" (buildPrompt hist10 "hello") = true
       ∧ containsStr "xu6z" (buildPrompt hist10 "hello") = true
       ∧ containsStr "xu7z" (buildPrompt hist10 "hello") = true
       ∧ containsStr "xu8z" (buildPrompt hist10 "hello") = true
       ∧ containsStr "xu9z" (buildPrompt hist10 "hello") = true
       ∧ containsStr "xb4z" (buildPrompt hist10 "hello") = true
       ∧ containsStr "xb5z" (buildPrompt hist10 "hello") = true
       ∧ containsStr "xb6z" (buildPrompt hist10 "hello") = true
       ∧ containsStr "xb7z" (buildPrompt hist10 "hello") = true
       ∧ containsStr "xb8z" (buildPrompt hist10 "hello") = true
       ∧ containsStr "xb9z" (buildPrompt hist10 "hello") = true) := by
  refine ⟨?_, ?_, by decide⟩
  · intro hist
    constructor
    · unfold lastSix
      rw [List.length_drop]
      omega
    · exact ⟨hist.take (hist.length - 6), List.take_append_drop _ _⟩
  · intro hist h
    unfold lastSix
    rw [h]

/-- Witness for C4: the concrete ten-turn transcript satisfies the
length hypothesis and its included slice is exactly the final six
turns. -/
theorem claim_C4_witness :
    hist10.length = 10 ∧ lastSix hist10 = hist10.drop 4 :=
  ⟨rfl, claim_C4_context_bound.2.1 hist10 rfl⟩

/-- Claim C9: two consecutive successful sends append exactly two turns
in submission order, each appended only once its reply is finalized
(the stored assistant text is the finalized reply); a clear empties the
transcript; and a prompt built after clearing includes no prior turns. -/
theorem claim_C9_transcript_lifecycle :
    (∀ (model : Call → Except PyExc PyVal) (hist : List (String × String))
       (i1 i2 : String),
      (pyStrip i1).data.isEmpty = false →
      (pyStrip i2).data.isEmpty = false →
      ∃ r1 r2,
        generateReplyE model hist i1 = .ok r1
        ∧ sendStep model hist i1 =
            some (hist ++ [(newlineToBr i1, newlineToBr r1)])
        ∧ generateReplyE model (hist ++ [(newlineToBr i1, newlineToBr r1)]) i2 = .ok r2
        ∧ sendStep model (hist ++ [(newlineToBr i1, newlineToBr r1)]) i2 =
            some (hist ++ [(newlineToBr i1, newlineToBr r1),
                           (newlineToBr i2, newlineToBr r2)]))
    ∧ (∀ hist : List (String × String), clearStep hist = [])
    ∧ convoText [] = ""
    ∧ (∀ input : String,
        buildPrompt [] input = "\nUser: " ++ modifiedInput input ++ "\nIdeaForge:") := by
  refine ⟨?_, fun _ => rfl, rfl, fun _ => rfl⟩
  intro model hist i1 i2 h1 h2
  obtain ⟨r1, hr1⟩ := generateReplyE_isOk model hist i1
  obtain ⟨r2, hr2⟩ := generateReplyE_isOk model (hist ++ [(newlineToBr i1, newlineToBr r1)]) i2
  refine ⟨r1, r2, hr1, ?_, hr2, ?_⟩
  · unfold sendStep
    rw [h1, hr1]
    simp
  · unfold sendStep
    rw [h2, hr2]
    simp

/-- Witness for C9: two concrete sends against an always-answering model
append two turns in order. -/
theorem claim_C9_witness :
    (pyStrip "a").data.isEmpty = false
    ∧ (pyStrip "b").data.isEmpty = false
    ∧ ∃ r1 r2,
        generateReplyE modelOk [] "a" = .ok r1
        ∧ sendStep modelOk [] "a" = some [(newlineToBr "a", newlineToBr r1)]
        ∧ generateReplyE modelOk [(newlineToBr "a", newlineToBr r1)] "b" = .ok r2
        ∧ sendStep modelOk [(newlineToBr "a", newlineToBr r1)] "b" =
            some [(newlineToBr "a", newlineToBr r1), (newlineToBr "b", newlineToBr r2)] :=
  ⟨rfl, rfl, claim_C9_transcript_lifecycle.1 modelOk [] "a" "b" rfl rfl⟩

/-- Claim C10: the turn appended for a finalized reply stores the user
message and the reply with every newline replaced by the literal
`<br>`; the stored user text can therefore differ from the submitted
message, and prompts built on later requests contain `<br>` in place of
the original line breaks. -/
theorem claim_C10_br_encoding :
    (∀ (model : Call → Except PyExc PyVal) (hist : List (String × String))
       (input : String),
      (pyStrip input).data.isEmpty = false →
      ∃ reply,
        generateReplyE model hist input = .ok reply
        ∧ sendStep model hist input =
            some (hist ++ [(newlineToBr input, newlineToBr reply)]))
    ∧ newlineToBr "a\nb" = "a<br>b"
    ∧ newlineToBr "a\nb" ≠ "a\nb"
    ∧ containsStr "<br>" (buildPrompt [(newlineToBr "a\nb", "ok")] "next") = true
    ∧ containsStr "<br>" "a\nb" = false := by
  refine ⟨?_, rfl, by decide, by decide, by decide⟩
  intro model hist input h
  obtain ⟨reply, hr⟩ := generateReplyE_isOk model hist input
  refine ⟨reply, hr, ?_⟩
  unfold sendStep
  rw [h, hr]
  simp

/-- Witness for C10: a concrete multi-line submission is stored with its
newline rewritten to a literal `<br>` tag. -/
theorem claim_C10_witness :
    (pyStrip "a\nb").data.isEmpty = false
    ∧ ∃ reply,
        generateReplyE modelOk [] "a\nb" = .ok reply
        ∧ sendStep modelOk [] "a\nb" = some [(newlineToBr "a\nb", newlineToBr reply)] :=
  ⟨rfl, claim_C10_br_encoding.1 modelOk [] "a\nb" rfl⟩

theorem env_hasattr_cands (cv tv : PyVal) :
    hasattrB (.obj [("candidates", cv), ("text", tv)]) "candidates" = true := rfl

theorem env_hasattr_text (cv tv : PyVal) :
    hasattrB (.obj [("candidates", cv), ("text", tv)]) "text" = true := rfl

theorem env_getattr_cands (cv tv : PyVal) :
    getattrD (.obj [("candidates", cv), ("text", tv)]) "candidates" = cv := rfl

theorem env_getattr_text (cv tv : PyVal) :
    getattrD (.obj [("candidates", cv), ("text", tv)]) "text" = tv := rfl

theorem cand_hasattr_content (ct : PyVal) :
    hasattrB (.obj [("content", ct)]) "content" = true := rfl

theorem cand_getattr_content (ct : PyVal) :
    getattrD (.obj [("content", ct)]) "content" = ct := rfl

theorem content_hasattr_parts (pv : PyVal) :
    hasattrB (.obj [("parts", pv)]) "parts" = true := rfl

theorem content_getattr_parts (pv : PyVal) :
    getattrD (.obj [("parts", pv)]) "parts" = pv := rfl

theorem part_getattr_text (p : PartE) :
    getattrD (PartE.toVal p) "text" =
      (match p.text with
       | some s => PyVal.str s
       | Option.none => PyVal.none) := by
  obtain ⟨t⟩ := p
  cases t <;> rfl

theorem isTruthy_none_eq : isTruthy PyVal.none = false := rfl

theorem isTruthy_str_eq (s : String) : isTruthy (PyVal.str s) = !s.data.isEmpty := rfl

theorem isTruthy_list_eq (l : List PyVal) : isTruthy (PyVal.list l) = !l.isEmpty := rfl

theorem isTruthy_obj_eq (fs : List (String × PyVal)) : isTruthy (PyVal.obj fs) = true := rfl

theorem toVal_texts_eq (l : List PartE) :
    (l.map PartE.toVal).filterMap (fun p =>
        if isTruthy (getattrD p "text") then some (getattrD p "text")
        else Option.none)
      = (l.filterMap (fun p =>
          match p.text with
          | some s => if s.data.isEmpty then Option.none else some s
          | Option.none => Option.none)).map PyVal.str := by
  have hfun : ∀ p : PartE,
      (if isTruthy (getattrD (PartE.toVal p) "text")
       then some (getattrD (PartE.toVal p) "text") else Option.none)
        = Option.map PyVal.str
            (match p.text with
             | some s => if s.data.isEmpty then Option.none else some s
             | Option.none => Option.none) := by
    intro p
    obtain ⟨t⟩ := p
    cases t with
    | none => rfl
    | some s => cases hd : s.data.isEmpty <;> simp [part_getattr_text, isTruthy, hd]
  rw [List.filterMap_map, List.map_filterMap]
  exact List.filterMap_congr (fun p _ => hfun p)

theorem toVal_texts_cons_eq (p : PartE) (ps : List PartE) :
    (PartE.toVal p :: ps.map PartE.toVal).filterMap (fun q =>
        if isTruthy (getattrD q "text") then some (getattrD q "text")
        else Option.none)
      = ((p :: ps).filterMap (fun q =>
          match q.text with
          | some s => if s.data.isEmpty then Option.none else some s
          | Option.none => Option.none)).map PyVal.str :=
  toVal_texts_eq (p :: ps)

theorem joinArgs_map_str (ts : List String) :
    joinArgs (ts.map PyVal.str) = .ok ts := by
  induction ts with
  | nil => rfl
  | cons s rest ih => simp [joinArgs, ih]

theorem joinArgs_str_cons (t : String) (ts : List String) :
    joinArgs (PyVal.str t :: ts.map PyVal.str) = .ok (t :: ts) :=
  joinArgs_map_str (t :: ts)

theorem extract_toVal_eq (e : EnvE) :
    extract_text_from_response (EnvE.toVal e) = amendedExtractPolicy e := by
  obtain ⟨cands, txt⟩ := e
  cases cands with
  | none =>
    cases txt with
    | none => rfl
    | some s =>
      cases hd : s.data.isEmpty <;>
        simp [extract_text_from_response, extractBody, EnvE.toVal,
          amendedExtractPolicy, flatTextPolicy, env_hasattr_cands,
          env_hasattr_text, env_getattr_cands, env_getattr_text, isTruthy, hd]
  | some cs =>
    cases cs with
    | nil =>
      cases txt with
      | none => rfl
      | some s =>
        cases hd : s.data.isEmpty <;>
          simp [extract_text_from_response, extractBody, EnvE.toVal,
            amendedExtractPolicy, flatTextPolicy, env_hasattr_cands,
            env_hasattr_text, env_getattr_cands, env_getattr_text, isTruthy, hd]
    | cons c rest =>
      obtain ⟨ct⟩ := c
      cases ct with
      | none =>
        cases txt with
        | none =>
          simp [extract_text_from_response, extractBody, EnvE.toVal,
            CandE.toVal, amendedExtractPolicy, flatTextPolicy, candidateTexts,
            env_hasattr_cands, env_hasattr_text, env_getattr_cands,
            env_getattr_text, cand_hasattr_content, cand_getattr_content,
            isTruthy, pyIndex0]
        | some s =>
          cases hd : s.data.isEmpty <;>
            simp [extract_text_from_response, extractBody, EnvE.toVal,
              CandE.toVal, amendedExtractPolicy, flatTextPolicy, candidateTexts,
              env_hasattr_cands, env_hasattr_text, env_getattr_cands,
              env_getattr_text, cand_hasattr_content, cand_getattr_content,
              isTruthy, pyIndex0, hd]
      | some parts =>
        cases parts with
        | nil =>
          cases txt with
          | none =>
            simp [extract_text_from_response, extractBody, EnvE.toVal,
              CandE.toVal, amendedExtractPolicy, flatTextPolicy, candidateTexts,
              env_hasattr_cands, env_hasattr_text, env_getattr_cands,
              env_getattr_text, cand_hasattr_content, cand_getattr_content,
              content_hasattr_parts, content_getattr_parts, isTruthy, pyIndex0]
          | some s =>
            cases hd : s.data.isEmpty <;>
              simp [extract_text_from_response, extractBody, EnvE.toVal,
                CandE.toVal, amendedExtractPolicy, flatTextPolicy, candidateTexts,
                env_hasattr_cands, env_hasattr_text, env_getattr_cands,
                env_getattr_text, cand_hasattr_content, cand_getattr_content,
                content_hasattr_parts, content_getattr_parts, isTruthy, pyIndex0, hd]
        | cons p ps =>
          cases hts : (p :: ps).filterMap (fun q =>
              match q.text with
              | some s => if s.data.isEmpty then Option.none else some s
              | Option.none => Option.none) with
          | nil =>
            cases txt with
            | none =>
              simp [extract_text_from_response, extractBody, EnvE.toVal,
                CandE.toVal, amendedExtractPolicy, flatTextPolicy, candidateTexts,
                env_hasattr_cands, env_hasattr_text, env_getattr_cands,
                env_getattr_text, cand_hasattr_content, cand_getattr_content,
                content_hasattr_parts, content_getattr_parts, isTruthy_none_eq,
                isTruthy_str_eq, isTruthy_list_eq, isTruthy_obj_eq, pyIndex0,
                pyIter, toVal_texts_cons_eq, hts, -List.isEmpty_eq_true,
                -List.isEmpty_eq_false, -List.map_eq_nil_iff,
                -List.filterMap_eq_nil_iff]
            | some s =>
              cases hd : s.data.isEmpty <;>
                simp [extract_text_from_response, extractBody, EnvE.toVal,
                  CandE.toVal, amendedExtractPolicy, flatTextPolicy, candidateTexts,
                  env_hasattr_cands, env_hasattr_text, env_getattr_cands,
                  env_getattr_text, cand_hasattr_content, cand_getattr_content,
                  content_hasattr_parts, content_getattr_parts, isTruthy_none_eq,
                  isTruthy_str_eq, isTruthy_list_eq, isTruthy_obj_eq, pyIndex0,
                  pyIter, toVal_texts_cons_eq, hts, hd, -List.isEmpty_eq_true,
                  -List.isEmpty_eq_false, -List.map_eq_nil_iff,
                  -List.filterMap_eq_nil_iff]
          | cons t ts =>
            simp [extract_text_from_response, extractBody, EnvE.toVal,
              CandE.toVal, amendedExtractPolicy, flatTextPolicy, candidateTexts,
              env_hasattr_cands, env_hasattr_text, env_getattr_cands,
              env_getattr_text, cand_hasattr_content, cand_getattr_content,
              content_hasattr_parts, content_getattr_parts, isTruthy_none_eq,
              isTruthy_str_eq, isTruthy_list_eq, isTruthy_obj_eq, pyIndex0,
              pyIter, toVal_texts_cons_eq, joinArgs_str_cons, hts,
              -List.isEmpty_eq_true, -List.isEmpty_eq_false,
              -List.map_eq_nil_iff, -List.filterMap_eq_nil_iff]

/-- Counterexample to claim C5: on an envelope whose non-empty candidate
list yields no text (falsy content) but whose flat text field is
non-empty, the code falls through to the flat text field and returns it,
while the claimed policy — later checks only when no non-empty candidate
list exists — yields Empty. -/
theorem claim_C5_counterexample :
    extract_text_from_response (EnvE.toVal fallthroughEnv) = some "hello"
    ∧ specExtractPolicy fallthroughEnv = Option.none
    ∧ extract_text_from_response (EnvE.toVal fallthroughEnv)
        ≠ specExtractPolicy fallthroughEnv :=
  ⟨rfl, rfl, by decide⟩

/-- Claim C5 as amended: on structured envelopes the extraction policy
is, in order: (a) if a non-empty candidate list exists and its first
candidate yields at least one non-empty text part, return those parts
joined with newline and stripped of surrounding whitespace, ignoring all
later candidates; (b) otherwise — including when the candidate path
yields no text — if the flat text field is non-empty, return it
stripped; (c) otherwise Empty. -/
theorem claim_C5_extraction_policy :
    (∀ e : EnvE,
      extract_text_from_response (EnvE.toVal e) = amendedExtractPolicy e)
    ∧ (∀ (c : CandE) (rest rest2 : List CandE) (t : Option String),
        extract_text_from_response (EnvE.toVal ⟨some (c :: rest), t⟩)
          = extract_text_from_response (EnvE.toVal ⟨some (c :: rest2), t⟩)) :=
  ⟨extract_toVal_eq, fun c rest rest2 t => by
    rw [extract_toVal_eq, extract_toVal_eq]
    simp only [amendedExtractPolicy]
    cases candidateTexts c <;> simp [flatTextPolicy]⟩

/-- Joining char-list lines with a newline separator (the inverse view
of `splitOnNl`). -/
def joinNlC : List (List Char) → List Char
  | [] => []
  | [x] => x
  | x :: xs => x ++ '\n' :: joinNlC xs

theorem noNl_iff (s : String) : noNl s = true ↔ ∀ c ∈ s.data, c ≠ '\n' := by
  simp [noNl, List.all_eq_true]

theorem noNl_append (a b : String) : noNl (a ++ b) = (noNl a && noNl b) := by
  simp [noNl, String.data_append, List.all_append]

theorem splitOnNl_noNl (xs : List Char) (h : ∀ c ∈ xs, c ≠ '\n') :
    splitOnNl xs = [xs] := by
  induction xs with
  | nil => rfl
  | cons c t ih =>
    have hc : c ≠ '\n' := h c (List.mem_cons_self _ _)
    have ht := ih (fun d hd => h d (List.mem_cons_of_mem _ hd))
    simp [splitOnNl, hc, ht]

theorem splitOnNl_append_nl (xs ys : List Char) (h : ∀ c ∈ xs, c ≠ '\n') :
    splitOnNl (xs ++ '\n' :: ys) = xs :: splitOnNl ys := by
  induction xs with
  | nil => simp [splitOnNl]
  | cons c t ih =>
    have hc : c ≠ '\n' := h c (List.mem_cons_self _ _)
    have ht := ih (fun d hd => h d (List.mem_cons_of_mem _ hd))
    simp [splitOnNl, hc, ht]

theorem splitOnNl_joinNlC (xs : List (List Char))
    (h : ∀ x ∈ xs, ∀ c ∈ x, c ≠ '\n') (hne : xs ≠ []) :
    splitOnNl (joinNlC xs) = xs := by
  induction xs with
  | nil => cases hne rfl
  | cons x xs2 ih =>
    cases xs2 with
    | nil => exact splitOnNl_noNl x (h x (by simp))
    | cons y ys =>
      rw [show joinNlC (x :: y :: ys) = x ++ '\n' :: joinNlC (y :: ys) from rfl]
      rw [splitOnNl_append_nl x _ (h x (by simp))]
      rw [ih (fun z hz => h z (by simp [hz])) (by simp)]

theorem nl_idea_data :
    ("\nIdeaForge: " : String).data = '\n' :: ("IdeaForge: " : String).data := rfl

theorem nl_data : ("\n" : String).data = ['\n'] := rfl

theorem pyJoin_blocks_data (l : List (String × String)) (hl : l ≠ []) :
    (pyJoin "\n" (l.map (fun p => "User: " ++ p.1 ++ "\nIdeaForge: " ++ p.2))).data
      = joinNlC (l.flatMap (fun p =>
          [("User: " ++ p.1).data, ("IdeaForge: " ++ p.2).data])) := by
  induction l with
  | nil => cases hl rfl
  | cons p l2 ih =>
    cases l2 with
    | nil =>
      simp [pyJoin, joinNlC, String.data_append, nl_idea_data, List.append_assoc]
    | cons q l3 =>
      have ih2 := ih (by simp)
      simp only [List.map_cons] at ih2 ⊢
      rw [show pyJoin "\n" (("User: " ++ p.1 ++ "\nIdeaForge: " ++ p.2)
            :: ("User: " ++ q.1 ++ "\nIdeaForge: " ++ q.2)
            :: (l3.map (fun r => "User: " ++ r.1 ++ "\nIdeaForge: " ++ r.2)))
          = ("User: " ++ p.1 ++ "\nIdeaForge: " ++ p.2) ++ "\n"
            ++ pyJoin "\n" (("User: " ++ q.1 ++ "\nIdeaForge: " ++ q.2)
                :: (l3.map (fun r => "User: " ++ r.1 ++ "\nIdeaForge: " ++ r.2)))
          from rfl]
      simp [String.data_append, nl_idea_data, nl_data, List.append_assoc, ih2,
        joinNlC, List.flatMap_cons]

theorem mk_data (s : String) : String.mk s.data = s := rfl

theorem nl_user_data :
    ("\nUser: " : String).data = '\n' :: ("User: " : String).data := rfl

theorem nl_cue_data :
    ("\nIdeaForge:" : String).data = '\n' :: ("IdeaForge:" : String).data := rfl

theorem joinNlC_append (xs ys : List (List Char)) (hx : xs ≠ []) (hy : ys ≠ []) :
    joinNlC (xs ++ ys) = joinNlC xs ++ '\n' :: joinNlC ys := by
  induction xs with
  | nil => cases hx rfl
  | cons x xs2 ih =>
    cases xs2 with
    | nil =>
      cases ys with
      | nil => cases hy rfl
      | cons y ys2 => simp [joinNlC]
    | cons x2 xs3 =>
      have ih2 := ih (by simp)
      rw [show (x :: x2 :: xs3) ++ ys = x :: ((x2 :: xs3) ++ ys) from rfl]
      rw [show joinNlC (x :: x2 :: xs3) = x ++ '\n' :: joinNlC (x2 :: xs3) from rfl]
      rw [show joinNlC (x :: (x2 :: xs3 ++ ys)) = x ++ '\n' :: joinNlC (x2 :: xs3 ++ ys)
          from rfl]
      rw [ih2]
      simp

theorem noNl_modifiedInput (input : String) (h : noNl input = true) :
    noNl (modifiedInput input) = true := by
  unfold modifiedInput
  split
  · rw [noNl_append, h]
    decide
  · split
    · rw [noNl_append, h]
      decide
    · exact h

/-- Counterexample to claim C8: the trailing cue line of the prompt is
the literal `IdeaForge:`, not `Assistant:`, and no `Assistant` label
occurs anywhere in a prompt over newline-free turns. -/
theorem claim_C8_counterexample :
    (linesOf (buildPrompt [] "hello")).getLast? = some "IdeaForge:"
    ∧ (linesOf (buildPrompt [] "hello")).getLast? ≠ some "Assistant:"
    ∧ containsStr "Assistant" (buildPrompt [] "hello") = false :=
  ⟨rfl, by decide, by decide⟩

/-- Claim C8 as amended: for turns and a message free of newline
characters, the prompt consists of the included turns as alternating
`User: …` / `IdeaForge: …` lines (with a leading empty line when the
transcript is empty), then the possibly intent-prefixed message as a
`User:` line, and the trailing `IdeaForge:` cue as the final line. -/
theorem claim_C8_prompt_lines (hist : List (String × String)) (input : String)
    (hl : ∀ p ∈ lastSix hist, noNl p.1 = true ∧ noNl p.2 = true)
    (hin : noNl input = true) :
    linesOf (buildPrompt hist input) =
      (if lastSix hist = [] then [""]
       else (lastSix hist).flatMap
         (fun p => ["User: " ++ p.1, "IdeaForge: " ++ p.2]))
      ++ ["User: " ++ modifiedInput input, "IdeaForge:"] := by
  have hmi : noNl (modifiedInput input) = true := noNl_modifiedInput input hin
  have hU : ∀ c ∈ ("User: " ++ modifiedInput input).data, c ≠ '\n' :=
    (noNl_iff _).1 (by rw [noNl_append, hmi]; decide)
  have hC : ∀ c ∈ ("IdeaForge:" : String).data, c ≠ '\n' := by decide
  unfold linesOf buildPrompt convoText
  cases hls : lastSix hist with
  | nil =>
    have hdata :
        (pyJoin "\n" (([] : List (String × String)).map
            (fun p => "User: " ++ p.1 ++ "\nIdeaForge: " ++ p.2))
          ++ "\nUser: " ++ modifiedInput input ++ "\nIdeaForge:").data
        = joinNlC [[], ("User: " ++ modifiedInput input).data,
            ("IdeaForge:" : String).data] := by
      simp [pyJoin, joinNlC, String.data_append, nl_user_data, nl_cue_data,
        List.append_assoc]
    rw [hdata]
    rw [splitOnNl_joinNlC _ ?_ (by simp)]
    · simp only [List.map_cons, List.map_nil]
      rfl
    · intro x hx
      simp only [List.mem_cons, List.not_mem_nil, or_false] at hx
      rcases hx with rfl | rfl | rfl
      · simp
      · exact hU
      · exact hC
  | cons p l2 =>
    have hfb : (p :: l2).flatMap (fun r =>
        [("User: " ++ r.1).data, ("IdeaForge: " ++ r.2).data]) ≠ [] := by
      simp
    have hdata :
        (pyJoin "\n" ((p :: l2).map
            (fun r => "User: " ++ r.1 ++ "\nIdeaForge: " ++ r.2))
          ++ "\nUser: " ++ modifiedInput input ++ "\nIdeaForge:").data
        = joinNlC (((p :: l2).flatMap (fun r =>
              [("User: " ++ r.1).data, ("IdeaForge: " ++ r.2).data]))
            ++ [("User: " ++ modifiedInput input).data,
                ("IdeaForge:" : String).data]) := by
      rw [joinNlC_append _ _ hfb (by simp)]
      rw [← pyJoin_blocks_data _ (by simp)]
      simp [joinNlC, String.data_append, nl_user_data, nl_cue_data,
        List.append_assoc]
    rw [hdata]
    rw [splitOnNl_joinNlC _ ?_ (by simp)]
    · simp only [List.map_append, List.map_flatMap, List.flatMap_cons,
        List.map_cons, List.map_nil, List.cons_append, List.nil_append]
      rfl
    · intro x hx
      simp only [List.mem_append, List.mem_flatMap, List.mem_cons,
        List.not_mem_nil, or_false] at hx
      rcases hx with ⟨r, hr, hx⟩ | hx
      · have hrr := hl r (by rw [hls]; exact List.mem_cons.mpr hr)
        rcases hx with rfl | rfl
        · exact (noNl_iff _).1 (by rw [noNl_append, hrr.1]; decide)
        · exact (noNl_iff _).1 (by rw [noNl_append, hrr.2]; decide)
      · rcases hx with rfl | rfl
        · exact hU
        · exact hC

set_option maxRecDepth 16384 in
/-- Witness for C8: a concrete two-turn transcript and message produce
exactly the alternating line structure with the `IdeaForge:` cue last. -/
theorem claim_C8_witness :
    (∀ p ∈ lastSix [("a", "b"), ("c", "d")], noNl p.1 = true ∧ noNl p.2 = true)
    ∧ noNl "hi" = true
    ∧ linesOf (buildPrompt [("a", "b"), ("c", "d")] "hi")
        = ["User: a", "IdeaForge: b", "User: c", "IdeaForge: d",
           "User: hi", "IdeaForge:"] :=
  ⟨by decide, rfl, by
    rw [claim_C8_prompt_lines [("a", "b"), ("c", "d")] "hi" (by decide) rfl]
    decide⟩
